import Mathlib

/-!
Verification of the cluster-execution task router.

This file gives a shallow embedding, in Lean 4, of the pure logic of the
repository: string helpers mirroring the Python primitives used by the code,
the cluster configuration and node registry, command validation and offload
classification, the scoring router, the local/remote executors (with external
effects — subprocesses, DNS, the wall clock — supplied as explicit oracle
parameters), the task store, the polling wait, the hostname resolvers of both
router variants, and the parallel fan-out dispatcher.  Theorems about these
definitions settle the specification claims.
-/

namespace Cluster

/-! ## Python string primitives

The code under test manipulates Python strings with `lower`, `startswith`,
`in` (substring), `strip`, `split`, `endswith` and `int(...)`.  These helpers
model those primitives on Lean strings (ASCII-faithful, which covers every
string the repository uses).
-/

/-- Python `str.lower()` (ASCII). -/
def pyLower (s : String) : String := ⟨s.data.map Char.toLower⟩

/-- Does the second character list start with the first? -/
def charsStartWith : List Char → List Char → Bool
  | [], _ => true
  | _ :: _, [] => false
  | p :: ps, c :: cs => p == c && charsStartWith ps cs

/-- Python `s.startswith(pat)`. -/
def pyStartswith (s pat : String) : Bool := charsStartWith pat.data s.data

/-- Does the character list contain the first list as a contiguous run? -/
def charsContain (pat : List Char) : List Char → Bool
  | [] => charsStartWith pat []
  | c :: cs => charsStartWith pat (c :: cs) || charsContain pat cs

/-- Python `needle in hay` on strings (substring containment). -/
def pyIn (needle hay : String) : Bool := charsContain needle.data hay.data

/-- Python `s.endswith(pat)`. -/
def pyEndswith (s pat : String) : Bool :=
  charsStartWith pat.data.reverse s.data.reverse

/-- The whitespace characters recognised by Python `strip`/`split`. -/
def isPySpace (c : Char) : Bool :=
  c == ' ' || c == '\t' || c == '\n' || c == '\r' || c == '\x0b' || c == '\x0c'

/-- Python `s.strip()`. -/
def pyStrip (s : String) : String :=
  ⟨((s.data.dropWhile isPySpace).reverse.dropWhile isPySpace).reverse⟩

/-- Numeric value of a nonempty all-digit character list. -/
def digitsVal (cs : List Char) : Option Nat :=
  if !cs.isEmpty && cs.all Char.isDigit then
    some (cs.foldl (fun a c => a * 10 + (c.toNat - 48)) 0)
  else none

/-- Python `int(s)` on decimal literals: optional surrounding whitespace,
optional sign, digits; `none` models the `ValueError` exception. -/
def pyIntOfString (s : String) : Option Int :=
  let t := ((s.data.dropWhile isPySpace).reverse.dropWhile isPySpace).reverse
  match t with
  | '+' :: ds => (digitsVal ds).map Int.ofNat
  | '-' :: ds => (digitsVal ds).map (fun n => -(n : Int))
  | ds => (digitsVal ds).map Int.ofNat

/-- Python `s.split(sep)` for a one-character separator (keeps empty fields). -/
def pySplitOn (sep : Char) (s : String) : List String :=
  let r := s.data.foldl
    (fun (acc : List String × List Char) c =>
      if c == sep then (acc.1 ++ [⟨acc.2.reverse⟩], []) else (acc.1, c :: acc.2))
    ([], [])
  r.1 ++ [⟨r.2.reverse⟩]

/-- Python `s.split()` with no argument: split on whitespace runs, no empty
fields. -/
def pySplitWs (s : String) : List String :=
  let r := s.data.foldl
    (fun (acc : List String × List Char) c =>
      if isPySpace c then
        (if acc.2.isEmpty then acc.1 else acc.1 ++ [⟨acc.2.reverse⟩], [])
      else (acc.1, c :: acc.2))
    ([], [])
  if r.2.isEmpty then r.1 else r.1 ++ [⟨r.2.reverse⟩]

/-- Python truthiness of an optional string (`None` and `""` are falsy). -/
def optStrTruthy : Option String → Bool
  | none => false
  | some s => !(s == "")

/-- Python truthiness of an optional list (`None` and `[]` are falsy). -/
def optListTruthy : Option (List String) → Bool
  | none => false
  | some l => !l.isEmpty

/-! ## Configuration (`config.py`, `ClusterConfig`)

Environment overrides are not modelled; the fields carry the documented
defaults.  Load thresholds are rationals standing in for the Python floats
(the code only ever compares them). -/

structure ClusterConfig where
  ssh_user : String := "marc"
  ssh_timeout : Int := 5
  ssh_connect_timeout : Int := 2
  ssh_retries : Int := 2
  cpu_threshold : ℚ := 40
  load_threshold : ℚ := 4
  memory_threshold : ℚ := 80
  command_timeout : Int := 300
  status_timeout : Int := 5
  ip_cache_ttl : Int := 300
deriving DecidableEq

/-- The global configuration instance, at its defaults. -/
def config : ClusterConfig := {}

/-! ## Cluster nodes (`config.py`) -/

structure ClusterNode where
  node_id : String
  hostname : String
  fallback_ip : String
  os : String
  arch : String
  capabilities : List String
  specialties : List String
  max_tasks : Nat
  priority : Int
deriving DecidableEq

/-- `ClusterNode.matches_requirements` from `config.py`: OS check with the
darwin/macos alias, case-insensitive arch check, case-insensitive capability
subset check; each requirement is skipped when falsy. -/
def ClusterNode.matchesRequirements (self : ClusterNode)
    (requires_os requires_arch : Option String)
    (requires_capabilities : Option (List String)) : Bool :=
  (if optStrTruthy requires_os then
    let node_os := pyLower self.os
    let required0 := pyLower (requires_os.getD "")
    let required := if required0 == "darwin" then "macos" else required0
    node_os == required
   else true) &&
  (if optStrTruthy requires_arch then
    pyLower self.arch == pyLower (requires_arch.getD "")
   else true) &&
  (if optListTruthy requires_capabilities then
    (requires_capabilities.getD []).all
      (fun r => self.capabilities.any (fun c => pyLower c == pyLower r))
   else true)

/-- `CLUSTER_NODES` from `config.py`, as an insertion-ordered association
list (Python dicts preserve insertion order). -/
def CLUSTER_NODES : List (String × ClusterNode) :=
  [ ("macpro51",
      { node_id := "macpro51", hostname := "macpro51.local",
        fallback_ip := "192.168.1.27", os := "linux", arch := "x86_64",
        capabilities := ["docker", "podman", "raid", "nvme", "compilation",
                         "testing", "tpu", "ollama"],
        specialties := ["compilation", "testing", "containerization",
                        "benchmarking", "linux-builds"],
        max_tasks := 10, priority := 3 }),
    ("mac-studio",
      { node_id := "mac-studio", hostname := "mac-studio.local",
        fallback_ip := "192.168.1.16", os := "macos", arch := "arm64",
        capabilities := ["orchestration", "coordination", "temporal",
                         "mlx-gpu", "arduino", "qdrant"],
        specialties := ["orchestration", "coordination", "monitoring",
                        "temporal-workflows"],
        max_tasks := 5, priority := 1 }),
    ("macbook-air",
      { node_id := "macbook-air", hostname := "macbook-air.local",
        fallback_ip := "192.168.1.76", os := "macos", arch := "arm64",
        capabilities := ["research", "documentation", "analysis", "mobile"],
        specialties := ["research", "documentation", "analysis",
                        "mobile-operations"],
        max_tasks := 3, priority := 2 }) ]

/-- `NODE_ALIASES` from `config.py`. -/
def NODE_ALIASES : List (String × String) :=
  [ ("builder", "macpro51"),
    ("orchestrator", "mac-studio"),
    ("researcher", "macbook-air"),
    ("macpro51", "macpro51"),
    ("mac-studio", "mac-studio"),
    ("macbook-air", "macbook-air"),
    ("linux", "macpro51"),
    ("studio", "mac-studio"),
    ("air", "macbook-air") ]

/-- `resolve_node_id` from `config.py`:
`NODE_ALIASES.get(node_id.lower(), node_id)`. -/
def resolve_node_id (node_id : String) : String :=
  match NODE_ALIASES.lookup (pyLower node_id) with
  | some canonical => canonical
  | none => node_id

/-- `get_node` from `config.py`: direct lookup, then alias resolution. -/
def get_node (node_id : String) : Option ClusterNode :=
  match CLUSTER_NODES.lookup node_id with
  | some n => some n
  | none => CLUSTER_NODES.lookup (resolve_node_id node_id)

/-! ## Offload patterns and classification (`config.py`, `server.py`) -/

/-- `OFFLOAD_PATTERNS` from `config.py`. -/
def OFFLOAD_PATTERNS : List String :=
  ["make", "cargo", "npm", "yarn", "pnpm",
   "pytest", "jest", "mocha", "test",
   "build", "compile", "gcc", "g++", "clang",
   "docker", "podman", "kubectl",
   "rsync", "scp", "tar", "zip", "unzip",
   "find", "grep -r", "rg"]

/-- `LOCAL_PATTERNS` from `config.py`. -/
def LOCAL_PATTERNS : List String :=
  ["ls", "pwd", "cd", "echo", "cat", "head", "tail", "which", "type"]

/-- `should_offload_command` from `config.py`: lowercase, return `false` on
the first local-pattern prefix match, otherwise `true` on any offload-pattern
substring match. -/
def should_offload_command (command : String) : Bool :=
  let cmd_lower := pyLower command
  if LOCAL_PATTERNS.any (fun p => pyStartswith cmd_lower p) then false
  else OFFLOAD_PATTERNS.any (fun p => pyIn p cmd_lower)

/-- `ClusterExecutionServer.is_overloaded` from `server.py`, with the sampled
metrics passed in explicitly. -/
def is_overloaded (cpu load1 memory : ℚ) : Bool :=
  decide (cpu > config.cpu_threshold) ||
  decide (load1 > config.load_threshold) ||
  decide (memory > config.memory_threshold)

/-- `ClusterExecutionServer.should_offload` from `server.py`: command
patterns first, then current load. -/
def should_offload (cpu load1 memory : ℚ) (command : String) : Bool :=
  if should_offload_command command then true
  else is_overloaded cpu load1 memory

/-! ## Command and address validation (`config.py`) -/

/-- `dangerous_patterns` inside `validate_command`. -/
def dangerous_patterns : List String :=
  ["rm -rf /",
   "rm -rf /*",
   "> /dev/sda",
   "dd if=/dev/zero of=/dev/",
   ":()\x7b :|:& \x7d;:"]

/-- `validate_command` from `config.py`: reject empty/whitespace commands and
commands containing any dangerous pattern (case-insensitive substring). -/
def validate_command (command : String) : Bool × Option String :=
  if command == "" || pyStrip command == "" then
    (false, some "Command cannot be empty")
  else
    let cmd_lower := pyLower command
    match dangerous_patterns.find? (fun p => pyIn (pyLower p) cmd_lower) with
    | some p => (false, some ("Command contains dangerous pattern: " ++ p))
    | none => (true, none)

/-- The 172.16–31.x.x rejection step of `validate_ip`: a `172.`-prefixed
address is rejected when its second octet is in 16..31 or fails to parse. -/
def dockerBridgeReject (ip : String) : Bool :=
  if pyStartswith ip "172." then
    match (pySplitOn '.' ip).get? 1 with
    | none => true
    | some s =>
      match pyIntOfString s with
      | none => true
      | some n => decide (16 ≤ n) && decide (n ≤ 31)
  else false

/-- `validate_ip` from `config.py`: reject empty, loopback, container-bridge,
link-local, the podman 10.0/16 slice, and malformed IPv4 literals. -/
def validate_ip (ip : String) : Bool :=
  if ip == "" then false
  else if pyStartswith ip "127." then false
  else if dockerBridgeReject ip then false
  else if pyStartswith ip "169.254." then false
  else if pyStartswith ip "10.0." then false
  else
    let parts := pySplitOn '.' ip
    if parts.length != 4 then false
    else parts.all (fun part =>
      match pyIntOfString part with
      | none => false
      | some n => decide (0 ≤ n) && decide (n ≤ 255))

/-! ## Task model and scoring router (`router.py`) -/

/-- The `Task` dataclass from `router.py` (`metadata` is a free-form dict in the
source, carried here as its JSON text; timestamps are integers). -/
structure Task where
  task_id : String
  task_type : String
  command : Option String := none
  script : Option String := none
  requires_os : Option String := none
  requires_arch : Option String := none
  requires_capabilities : Option (List String) := none
  priority : Int := 5
  metadata : Option String := none
  submitted_from : Option String := none
  submitted_at : Option Int := none
deriving DecidableEq

/-- The score computed inside `_route_task` for one surviving candidate:
+100 for a specialty match, `(5 − priority) × 20`, −1000 for the local node. -/
def node_score (p : String × ClusterNode) (task_type local_node_id : String) : Int :=
  (if p.2.specialties.contains task_type then 100 else 0) +
  (5 - p.2.priority) * 20 +
  (if p.1 == local_node_id then -1000 else 0)

/-- `candidates.sort(reverse=True); candidates[0]` for a stable sort on the
score: the first pair attaining the maximum score. -/
def selectMax (best : String × Int) : List (String × Int) → String × Int
  | [] => best
  | c :: cs => if c.2 > best.2 then selectMax c cs else selectMax best cs

/-- The `candidates` list built by `_route_task`: requirement-passing nodes
in registry order, paired with their scores. -/
def route_candidates (local_node_id : String) (task : Task) : List (String × Int) :=
  (CLUSTER_NODES.filter (fun p =>
    p.2.matchesRequirements task.requires_os task.requires_arch
      task.requires_capabilities)).map
  (fun p => (p.1, node_score p task.task_type local_node_id))

/-- `_route_task` from `router.py`: highest-scoring candidate, or the local
node when no node passes the requirement filter. -/
def route_task (local_node_id : String) (task : Task) : String :=
  match route_candidates local_node_id task with
  | [] => local_node_id
  | c :: cs => (selectMax c cs).1

/-! ### Router lemmas -/

theorem lookup_eq_some_mem {β : Type} (l : List (String × β)) (k : String)
    (v : β) (h : l.lookup k = some v) : (k, v) ∈ l := by
  induction l with
  | nil => simp [List.lookup] at h
  | cons p l ih =>
    rcases p with ⟨a, b⟩
    by_cases hk : (k == a) = true
    · have hka : k = a := by simpa using hk
      simp [List.lookup, hk] at h
      subst hka
      simp [h]
    · simp [List.lookup, hk] at h
      exact List.mem_cons_of_mem _ (ih h)

theorem selectMax_mem (best : String × Int) (cs : List (String × Int)) :
    selectMax best cs ∈ best :: cs := by
  induction cs generalizing best with
  | nil => simp [selectMax]
  | cons c cs ih =>
    rw [selectMax]
    split
    · rcases List.mem_cons.mp (ih c) with h | h
      · simp [h]
      · simp [List.mem_cons, Or.inr (Or.inr h)]
    · rcases List.mem_cons.mp (ih best) with h | h
      · simp [h]
      · simp [List.mem_cons, Or.inr (Or.inr h)]

theorem le_selectMax (best : String × Int) (cs : List (String × Int)) :
    ∀ x ∈ best :: cs, x.2 ≤ (selectMax best cs).2 := by
  induction cs generalizing best with
  | nil =>
    intro x hx
    rw [List.mem_singleton] at hx
    rw [hx, selectMax]
  | cons c cs ih =>
    intro x hx
    rw [selectMax]
    split
    · rename_i hgt
      rcases List.mem_cons.mp hx with hxb | hx2
      · rw [hxb]
        exact le_trans (le_of_lt hgt) (ih c c (List.mem_cons_self c cs))
      · exact ih c x hx2
    · rename_i hle
      push_neg at hle
      rcases List.mem_cons.mp hx with hxb | hx2
      · rw [hxb]
        exact ih best best (List.mem_cons_self best cs)
      · rcases List.mem_cons.mp hx2 with hxc | hx3
        · rw [hxc]
          exact le_trans hle (ih best best (List.mem_cons_self best cs))
        · exact ih best x (List.mem_cons_of_mem _ hx3)

theorem cluster_nodes_priority_bounds :
    ∀ p ∈ CLUSTER_NODES, 1 ≤ p.2.priority ∧ p.2.priority ≤ 3 := by decide

theorem node_score_of_ne (p : String × ClusterNode) (hp : p ∈ CLUSTER_NODES)
    (tt localId : String) (h : p.1 ≠ localId) :
    40 ≤ node_score p tt localId := by
  obtain ⟨h1, h3⟩ := cluster_nodes_priority_bounds p hp
  have hbeq : (p.1 == localId) = false := beq_eq_false_iff_ne.mpr h
  unfold node_score
  rw [hbeq]
  simp only [Bool.false_eq_true, if_false]
  split <;> omega

theorem node_score_of_eq (p : String × ClusterNode) (hp : p ∈ CLUSTER_NODES)
    (tt localId : String) (h : p.1 = localId) :
    node_score p tt localId ≤ -820 := by
  obtain ⟨h1, h3⟩ := cluster_nodes_priority_bounds p hp
  have hbeq : (p.1 == localId) = true := by rw [h]; exact beq_self_eq_true localId
  unfold node_score
  simp only [hbeq, if_true]
  split <;> omega

/-- Claim C2: whenever some node other than the local one passes the
os/arch/capability requirement filter, the router's choice is not the local
node — the −1000 local penalty dominates the maximum positive score
(+100 specialty plus (5 − priority) × 20 ≤ 180 for the configured nodes). -/
theorem route_task_avoids_local (task : Task) (localId : String)
    (h : ∃ p ∈ CLUSTER_NODES, p.1 ≠ localId ∧
      p.2.matchesRequirements task.requires_os task.requires_arch
        task.requires_capabilities = true) :
    route_task localId task ≠ localId := by
  obtain ⟨p, hmem, hne, hmatch⟩ := h
  have hf : p ∈ CLUSTER_NODES.filter (fun q =>
      q.2.matchesRequirements task.requires_os task.requires_arch
        task.requires_capabilities) :=
    List.mem_filter.mpr ⟨hmem, hmatch⟩
  have hc : (p.1, node_score p task.task_type localId) ∈
      route_candidates localId task :=
    List.mem_map.mpr ⟨p, hf, rfl⟩
  unfold route_task
  cases hcand : route_candidates localId task with
  | nil => rw [hcand] at hc; cases hc
  | cons c cs =>
    rw [hcand] at hc
    simp only []
    intro heq
    have hselmem : selectMax c cs ∈ route_candidates localId task := by
      rw [hcand]; exact selectMax_mem c cs
    have hge : (p.1, node_score p task.task_type localId).2 ≤
        (selectMax c cs).2 := le_selectMax c cs _ hc
    obtain ⟨q, hqf, hq⟩ := List.mem_map.mp hselmem
    have hq1 : q.1 = localId := by rw [show q.1 = (selectMax c cs).1 from by
      rw [← hq], heq]
    have hqmem : q ∈ CLUSTER_NODES := (List.mem_filter.mp hqf).1
    have hle : node_score q task.task_type localId ≤ -820 :=
      node_score_of_eq q hqmem _ _ hq1
    have h40 : (40 : Int) ≤ node_score p task.task_type localId :=
      node_score_of_ne p hmem _ _ hne
    have hsel2 : (selectMax c cs).2 = node_score q task.task_type localId := by
      rw [← hq]
    have hge2 : node_score p task.task_type localId ≤ (selectMax c cs).2 := hge
    rw [hsel2] at hge2
    omega

/-- Witness for C2 at a concrete input: an unconstrained shell task submitted
from mac-studio is not routed to mac-studio. -/
theorem route_task_avoids_local_witness :
    route_task "mac-studio" { task_id := "t", task_type := "shell" } ≠
      "mac-studio" :=
  route_task_avoids_local { task_id := "t", task_type := "shell" }
    "mac-studio" (by decide)

/-- Claim C3 counterexample: with `requires_os = "windows"` no configured
node passes the filter, so the router falls back to the local node
(mac-studio), whose descriptor does not satisfy the OS requirement. -/
theorem route_task_fallback_unsatisfied :
    route_task "mac-studio"
      { task_id := "t", task_type := "shell", requires_os := some "windows" } =
      "mac-studio" ∧
    ((get_node "mac-studio").map
      (fun n => n.matchesRequirements (some "windows") none none)) =
      some false := by
  constructor
  · rfl
  · rfl

/-- Claim C3 amended: whenever at least one configured node passes the
requirement filter, the node the router returns is a configured node whose
descriptor satisfies every non-empty requirement; when no node passes, the
router returns the local node identifier regardless of the requirements. -/
theorem route_task_requirements (task : Task) (localId : String)
    (h : ∃ p ∈ CLUSTER_NODES,
      p.2.matchesRequirements task.requires_os task.requires_arch
        task.requires_capabilities = true) :
    (CLUSTER_NODES.lookup (route_task localId task)).map
      (fun n => n.matchesRequirements task.requires_os task.requires_arch
        task.requires_capabilities) = some true := by
  obtain ⟨p, hmem, hmatch⟩ := h
  have hc : (p.1, node_score p task.task_type localId) ∈
      route_candidates localId task :=
    List.mem_map.mpr ⟨p, List.mem_filter.mpr ⟨hmem, hmatch⟩, rfl⟩
  unfold route_task
  cases hcand : route_candidates localId task with
  | nil => rw [hcand] at hc; cases hc
  | cons c cs =>
    simp only []
    have hselmem : selectMax c cs ∈ route_candidates localId task := by
      rw [hcand]; exact selectMax_mem c cs
    obtain ⟨q, hqf, hq⟩ := List.mem_map.mp hselmem
    have hqmem : q ∈ CLUSTER_NODES := (List.mem_filter.mp hqf).1
    have hqmatch := (List.mem_filter.mp hqf).2
    have hlookup : CLUSTER_NODES.lookup q.1 = some q.2 := by
      have hall : ∀ r ∈ CLUSTER_NODES, CLUSTER_NODES.lookup r.1 = some r.2 := by
        decide
      exact hall q hqmem
    have hid : (selectMax c cs).1 = q.1 := by rw [← hq]
    rw [hid, hlookup]
    simpa using hqmatch

/-- Witness for the amended C3 at a concrete input: a linux-only task routed
from mac-studio lands on a configured node satisfying the OS requirement. -/
theorem route_task_requirements_witness :
    (CLUSTER_NODES.lookup (route_task "mac-studio"
      { task_id := "t", task_type := "shell", requires_os := some "linux" })).map
      (fun n => n.matchesRequirements (some "linux") none none) = some true :=
  route_task_requirements
    { task_id := "t", task_type := "shell", requires_os := some "linux" }
    "mac-studio" (by decide)

/-- Claim C10: node-alias resolution is idempotent — every alias maps to a
canonical identifier that maps to itself, and unknown identifiers pass
through unchanged. -/
theorem resolve_node_id_idempotent (s : String) :
    resolve_node_id (resolve_node_id s) = resolve_node_id s := by
  unfold resolve_node_id
  cases h : NODE_ALIASES.lookup (pyLower s) with
  | none => simp [h]
  | some v =>
    have hmem := lookup_eq_some_mem _ _ _ h
    have key : NODE_ALIASES.lookup (pyLower v) = some v := by
      have hall : ∀ p ∈ NODE_ALIASES,
          NODE_ALIASES.lookup (pyLower p.2) = some p.2 := by decide
      exact hall (pyLower s, v) hmem
    simp [h, key]

/-- Claim C8 counterexample: `echo make` contains the heavy pattern `make`
and the node is not overloaded, yet the classifier returns `false`, because
the local-trivial prefix `echo` is checked first. -/
theorem should_offload_heavy_in_local_cmd :
    should_offload 0 0 0 "echo make" = false ∧
    OFFLOAD_PATTERNS.any (fun p => pyIn p (pyLower "echo make")) = true ∧
    is_overloaded 0 0 0 = false := by decide

/-- Claim C8 amended: the offload classifier returns true exactly when the
command (lowercased) does not start with any local-trivial prefix and
contains a heavy pattern, or the local node is overloaded; in particular it
returns false for local-trivial-prefixed commands on a non-overloaded node,
even when they contain a heavy pattern. -/
theorem should_offload_characterization (cpu load1 memory : ℚ)
    (command : String) :
    should_offload cpu load1 memory command =
      ((!LOCAL_PATTERNS.any (fun p => pyStartswith (pyLower command) p) &&
        OFFLOAD_PATTERNS.any (fun p => pyIn p (pyLower command))) ||
       is_overloaded cpu load1 memory) := by
  unfold should_offload should_offload_command
  by_cases h : LOCAL_PATTERNS.any (fun p => pyStartswith (pyLower command) p)
  · simp [h]
  · simp only [Bool.not_eq_true] at h
    cases hh : OFFLOAD_PATTERNS.any (fun p => pyIn p (pyLower command)) <;>
      simp [h, hh]

/-! ## Executor model (`router.py`)

External effects are made explicit: a subprocess invocation is either an
argv list (`subprocess.run([...])`) or a locally shell-evaluated string
(`subprocess.run(cmd, shell=True)`); an `ExecEnv` oracle supplies the
outcome of each invocation, the result of `get_node_ip`, and the temp-file
path the OS hands out for script bodies.  The POSIX tokenizer `shlex.split`
is likewise passed in as a parameter. -/

/-- `TaskStatus` from `config.py`. -/
inductive TaskStatus where
  | pending | assigned | running | completed | failed | cancelled | timeout
deriving DecidableEq

/-- The `.value` string of each status. -/
def TaskStatus.value : TaskStatus → String
  | .pending => "pending"
  | .assigned => "assigned"
  | .running => "running"
  | .completed => "completed"
  | .failed => "failed"
  | .cancelled => "cancelled"
  | .timeout => "timeout"

/-- One subprocess invocation: argv-list discipline versus a locally
shell-evaluated command line. -/
inductive SpawnedProc where
  | argv (args : List String)
  | shellStr (cmdline : String)
deriving DecidableEq

/-- The observable outcome of one subprocess invocation. -/
inductive RunOutcome where
  | finished (stdout stderr : String) (returncode : Int)
  | timedOut
  | subprocErr (msg : String)
  | osErr (msg : String)
deriving DecidableEq

/-- Oracle for the executor's external effects. -/
structure ExecEnv where
  run : SpawnedProc → RunOutcome
  nodeIp : String → Option String
  tmpScriptPath : String

/-- Does `p` invoke the remote-shell client with an argv list whose final
element is exactly `command`? -/
def SpawnedProc.argvWithFinal (p : SpawnedProc) (command : String) : Bool :=
  match p with
  | .argv args => args.getLast? == some command
  | .shellStr _ => false

/-- The shell meta-operators `_execute_local` looks for before deciding
between `shell=True` and tokenized argv execution. -/
def shell_meta_chars : List String := ["|", "&&", "||", ";", "\x60", "$("]

/-- `any(c in task.command for c in [...])` from `_execute_local`. -/
def hasShellMeta (command : String) : Bool :=
  shell_meta_chars.any (fun c => pyIn c command)

/-- The terminal store update each `try/except` arm of the executors
performs, as a value: status, result, error, plus the subprocess invocations
performed. -/
structure ExecUpdate where
  status : TaskStatus
  result : Option String
  error : Option String
  spawned : List SpawnedProc
deriving DecidableEq

/-- Shared outcome handling of the executors: a finished run is `completed`
(stderr copied to the error field on non-zero exit), a timeout is `timeout`
with the canned message, and subprocess/OS errors are `failed`. -/
def runToUpdate (proc : SpawnedProc) (o : RunOutcome) (timeoutMsg : String) :
    ExecUpdate :=
  match o with
  | .finished out err rc =>
    { status := .completed, result := some out,
      error := if rc != 0 then some err else none, spawned := [proc] }
  | .timedOut =>
    { status := .timeout, result := none, error := some timeoutMsg,
      spawned := [proc] }
  | .subprocErr m =>
    { status := .failed, result := none, error := some m, spawned := [proc] }
  | .osErr m =>
    { status := .failed, result := none, error := some m, spawned := [proc] }

/-- `_execute_local` from `router.py`: shell path for commands with shell
meta-operators, tokenized argv otherwise, temp-file invocation for scripts,
and the no-payload branch that completes with a message and spawns nothing. -/
def execute_local (env : ExecEnv) (shlexSplit : String → List String)
    (task : Task) : ExecUpdate :=
  if optStrTruthy task.command then
    let cmd := task.command.getD ""
    let proc := if hasShellMeta cmd then SpawnedProc.shellStr cmd
                else SpawnedProc.argv (shlexSplit cmd)
    runToUpdate proc (env.run proc)
      ("Command timed out after " ++ toString config.command_timeout ++ "s")
  else if optStrTruthy task.script then
    let proc := SpawnedProc.argv [env.tmpScriptPath]
    runToUpdate proc (env.run proc)
      ("Command timed out after " ++ toString config.command_timeout ++ "s")
  else
    { status := .completed, result := some "No command or script provided",
      error := none, spawned := [] }

/-- The ssh argv list built by `_execute_remote` for a command, with the
command as the single final element. -/
def ssh_argv (node_ip command : String) : List String :=
  ["ssh",
   "-o", "ConnectTimeout=" ++ toString config.ssh_connect_timeout,
   "-o", "StrictHostKeyChecking=accept-new",
   "-o", "BatchMode=yes",
   config.ssh_user ++ "@" ++ node_ip,
   command]

/-- The scp argv list built by `_execute_remote` for a script upload. -/
def scp_argv (local_script ssh_target remote_script : String) : List String :=
  ["scp",
   "-o", "ConnectTimeout=" ++ toString config.ssh_connect_timeout,
   "-o", "StrictHostKeyChecking=accept-new",
   "-o", "BatchMode=yes",
   local_script, ssh_target ++ ":" ++ remote_script]

/-- `_execute_remote` from `router.py`: node lookup, IP resolution, then the
argv-list ssh invocation for a command, the scp-then-ssh pair for a script,
or the no-payload failure. -/
def execute_remote (env : ExecEnv) (task : Task) (target_node : String) :
    ExecUpdate :=
  match get_node target_node with
  | none =>
    { status := .failed, result := none,
      error := some ("Unknown target node: " ++ target_node), spawned := [] }
  | some _ =>
    match env.nodeIp target_node with
    | none =>
      { status := .failed, result := none,
        error := some ("Cannot resolve IP for node: " ++ target_node),
        spawned := [] }
    | some node_ip =>
      let ssh_target := config.ssh_user ++ "@" ++ node_ip
      if optStrTruthy task.command then
        let proc := SpawnedProc.argv (ssh_argv node_ip (task.command.getD ""))
        runToUpdate proc (env.run proc)
          ("Remote command timed out after " ++
            toString config.command_timeout ++ "s")
      else if optStrTruthy task.script then
        let remote_script := "/tmp/task_" ++ task.task_id ++ ".sh"
        let scpProc := SpawnedProc.argv
          (scp_argv env.tmpScriptPath ssh_target remote_script)
        match env.run scpProc with
        | .finished _ serr rc =>
          if rc != 0 then
            { status := .failed, result := none,
              error := some ("SCP failed: " ++ serr), spawned := [scpProc] }
          else
            let proc := SpawnedProc.argv (ssh_argv node_ip
              ("chmod +x " ++ remote_script ++ " && " ++ remote_script ++
               " && rm " ++ remote_script))
            let u := runToUpdate proc (env.run proc)
              ("Remote command timed out after " ++
                toString config.command_timeout ++ "s")
            { u with spawned := scpProc :: u.spawned }
        | .timedOut =>
          { status := .timeout, result := none,
            error := some ("Remote command timed out after " ++
              toString config.command_timeout ++ "s"),
            spawned := [scpProc] }
        | .subprocErr m =>
          { status := .failed, result := none, error := some m,
            spawned := [scpProc] }
        | .osErr m =>
          { status := .failed, result := none, error := some m,
            spawned := [scpProc] }
      else
        { status := .failed, result := none,
          error := some "No command or script provided", spawned := [] }

/-- The remote subprocess invocation built by the legacy
`distributed_task_router.py` `_execute_remote` (lines 608–628): the user
command or the script bootstrap is interpolated into a single-quoted ssh
command line that is then run with `shell=True` locally. -/
def legacy_remote_invocation (node_ip : String) (task : Task) :
    Option SpawnedProc :=
  if optStrTruthy task.command then
    some (SpawnedProc.shellStr
      ("ssh -o ConnectTimeout=5 marc@" ++ node_ip ++ " \x27" ++
       task.command.getD "" ++ "\x27"))
  else if optStrTruthy task.script then
    let remote_script := "/tmp/task_" ++ task.task_id ++ ".sh"
    some (SpawnedProc.shellStr
      ("ssh -o ConnectTimeout=5 marc@" ++ node_ip ++ " \x27chmod +x " ++
       remote_script ++ " && " ++ remote_script ++ " && rm " ++
       remote_script ++ "\x27"))
  else none

/-! ## Task store and submit (`router.py`) -/

/-- One row of the `task_queue` table (timestamps as integers;
`requires_capabilities` and `metadata` are JSON-serialized text in the
source, carried here in structured form and raw text respectively). -/
structure TaskRow where
  task_id : String
  task_type : String
  command : Option String := none
  script : Option String := none
  requires_os : Option String := none
  requires_arch : Option String := none
  requires_capabilities : Option (List String) := none
  priority : Int := 5
  metadata : Option String := none
  submitted_from : Option String := none
  submitted_at : Option Int := none
  assigned_to : Option String := none
  assigned_at : Option Int := none
  status : String := "pending"
  result : Option String := none
  completed_at : Option Int := none
  error : Option String := none
deriving DecidableEq

/-- `_store_task`: insert the `assigned` row for a routed task. -/
def store_task (store : List TaskRow) (task : Task) (target_node : String)
    (now : Int) : List TaskRow :=
  let row : TaskRow := {
    task_id := task.task_id, task_type := task.task_type,
    command := task.command, script := task.script,
    requires_os := task.requires_os, requires_arch := task.requires_arch,
    requires_capabilities := task.requires_capabilities,
    priority := task.priority, metadata := task.metadata,
    submitted_from := task.submitted_from, submitted_at := task.submitted_at,
    assigned_to := some target_node, assigned_at := some now,
    status := TaskStatus.assigned.value }
  store ++ [row]

/-- `_update_task_result`: set status, result, error and completion time on
the row with the given task identifier. -/
def update_task_result (store : List TaskRow) (task_id : String)
    (status : TaskStatus) (result error : Option String) (now : Int) :
    List TaskRow :=
  store.map (fun r =>
    if r.task_id == task_id then
      { r with status := status.value, result := result, error := error,
               completed_at := some now }
    else r)

/-- The `task_def` dictionary accepted by `submit_task`, with each key
optional exactly as `dict.get` treats it. -/
structure TaskDef where
  type : Option String := none
  command : Option String := none
  script : Option String := none
  requires_os : Option String := none
  requires_arch : Option String := none
  requires_capabilities : Option (List String) := none
  priority : Option Int := none
  metadata : Option String := none
deriving DecidableEq

/-- The validation stanza at the top of `submit_task`: only a truthy command
is validated, and a failure is raised as `ValueError(f"Invalid command:
{error}")`. -/
def submit_validation_error (command : Option String) : Option String :=
  if optStrTruthy command then
    if (validate_command (command.getD "")).1 then none
    else some ("Invalid command: " ++
      ((validate_command (command.getD "")).2.getD "None"))
  else none

/-- `submit_task` from `router.py`: validate, build the task, route, insert
the `assigned` row, execute locally or remotely, and record the terminal
update.  The returned option is the raised `ValueError` message, if any. -/
def submit_task (env : ExecEnv) (shlexSplit : String → List String)
    (local_node_id : String) (store : List TaskRow) (task_id : String)
    (now : Int) (task_def : TaskDef) : List TaskRow × Option String :=
  match submit_validation_error task_def.command with
  | some msg => (store, some msg)
  | none =>
    let task : Task := {
      task_id := task_id,
      task_type := task_def.type.getD "generic",
      command := task_def.command,
      script := task_def.script,
      requires_os := task_def.requires_os,
      requires_arch := task_def.requires_arch,
      requires_capabilities := task_def.requires_capabilities,
      priority := task_def.priority.getD 5,
      metadata := task_def.metadata,
      submitted_from := some local_node_id,
      submitted_at := some now }
    let target_node := route_task local_node_id task
    let store1 := store_task store task target_node now
    let u := if target_node == local_node_id
      then execute_local env shlexSplit task
      else execute_remote env task target_node
    (update_task_result store1 task.task_id u.status u.result u.error now,
     none)

/-- The status strings `wait_for_result` treats as terminal (`cancelled` is
absent in the source). -/
def wait_terminal_values : List String :=
  [TaskStatus.completed.value, TaskStatus.failed.value, TaskStatus.timeout.value]

/-- `wait_for_result` from `router.py`: poll the store every ≈500 ms until a
status from `wait_terminal_values` appears or the deadline passes.  `fuel` is
the number of polls remaining before the deadline, `i` the poll index fed to
the store snapshot. -/
def wait_for_result (read : Nat → Option TaskRow) : Nat → Nat → Option TaskRow
  | 0, _ => none
  | fuel + 1, i =>
    match read i with
    | none => none
    | some row =>
      if wait_terminal_values.contains row.status then some row
      else wait_for_result read fuel (i + 1)

/-- The status strings the legacy `wait_for_result`
(`distributed_task_router.py` lines 712-727) treats as terminal: only
`completed` and `failed` — both `timeout` and `cancelled` are polled past. -/
def legacy_wait_terminal_values : List String := ["completed", "failed"]

/-- `wait_for_result` from the legacy `distributed_task_router.py`: the same
≈500 ms polling loop over the same `task_queue.db`, but with the two-element
terminal list. -/
def legacy_wait_for_result (read : Nat → Option TaskRow) :
    Nat → Nat → Option TaskRow
  | 0, _ => none
  | fuel + 1, i =>
    match read i with
    | none => none
    | some row =>
      if legacy_wait_terminal_values.contains row.status then some row
      else legacy_wait_for_result read fuel (i + 1)

/-- A concrete oracle for witnesses: every subprocess succeeds with empty
output, and every node resolves to the builder's fallback address. -/
def trivial_env : ExecEnv :=
  { run := fun _ => RunOutcome.finished "" "" 0,
    nodeIp := fun _ => some "192.168.1.27",
    tmpScriptPath := "/tmp/tmpscript.sh" }

/-! ### Executor lemmas and claims C1, C4, C5, C6 -/

theorem runToUpdate_spawned (proc : SpawnedProc) (o : RunOutcome)
    (m : String) : (runToUpdate proc o m).spawned = [proc] := by
  cases o <;> rfl

/-- Claim C1 counterexample: for the task `echo hi`, the legacy router's
remote path performs a locally shell-evaluated invocation into which the
command is interpolated — not an argv list with the command as its final
element. -/
theorem legacy_remote_shell_interpolation :
    legacy_remote_invocation "192.0.2.237"
      { task_id := "t1", task_type := "shell", command := some "echo hi" } =
      some (SpawnedProc.shellStr
        "ssh -o ConnectTimeout=5 marc@192.0.2.237 \x27echo hi\x27") ∧
    ((legacy_remote_invocation "192.0.2.237"
      { task_id := "t1", task_type := "shell", command := some "echo hi" }).map
        (fun p => p.argvWithFinal "echo hi")) = some false ∧
    pyIn "echo hi"
      "ssh -o ConnectTimeout=5 marc@192.0.2.237 \x27echo hi\x27" = true :=
  ⟨rfl, rfl, by decide⟩

/-- Claim C1 amended: in the packaged router, remote execution of every task
carrying a truthy command invokes the ssh client with an argv list whose
single final element is the command verbatim; the legacy top-level router
instead interpolates the command into a locally shell-evaluated string (see
the counterexample). -/
theorem remote_command_argv_final (env : ExecEnv) (task : Task)
    (target_node node_ip : String)
    (hc : optStrTruthy task.command = true)
    (hn : (get_node target_node).isSome = true)
    (hip : env.nodeIp target_node = some node_ip) :
    (execute_remote env task target_node).spawned =
      [SpawnedProc.argv (ssh_argv node_ip (task.command.getD ""))] ∧
    (ssh_argv node_ip (task.command.getD "")).getLast? =
      some (task.command.getD "") := by
  refine ⟨?_, rfl⟩
  unfold execute_remote
  cases hg : get_node target_node with
  | none => rw [hg] at hn; simp at hn
  | some n =>
    rw [hip]
    simp only [hc, if_true]
    exact runToUpdate_spawned _ _ _

/-- Witness for the amended C1 at a concrete input. -/
theorem remote_command_argv_final_witness :
    (execute_remote trivial_env
      { task_id := "t1", task_type := "shell", command := some "echo hi" }
      "macpro51").spawned =
      [SpawnedProc.argv (ssh_argv "192.168.1.27" "echo hi")] ∧
    (ssh_argv "192.168.1.27" "echo hi").getLast? = some "echo hi" :=
  remote_command_argv_final trivial_env
    { task_id := "t1", task_type := "shell", command := some "echo hi" }
    "macpro51" "192.168.1.27" rfl (by rfl) rfl

/-- Claim C5 counterexample: a task with neither command nor script is
recorded as `completed` — not `failed` — by the local execution path, with
the deterministic message placed in the output field. -/
theorem local_no_payload_completed :
    execute_local trivial_env (fun s => [s])
      { task_id := "t2", task_type := "generic" } =
      { status := TaskStatus.completed,
        result := some "No command or script provided",
        error := none, spawned := [] } ∧
    TaskStatus.completed ≠ TaskStatus.failed :=
  ⟨rfl, by decide⟩

/-- Claim C5 amended: for a task with neither command nor script no
subprocess is spawned on either path; the local path records `completed`
with the message "No command or script provided" as output, while the
remote path — once the target is known and resolvable — records `failed`
with the same message. -/
theorem no_payload_no_subprocess (env : ExecEnv)
    (shlexSplit : String → List String) (task : Task) (target_node : String)
    (hc : optStrTruthy task.command = false)
    (hs : optStrTruthy task.script = false) :
    execute_local env shlexSplit task =
      { status := TaskStatus.completed,
        result := some "No command or script provided",
        error := none, spawned := [] } ∧
    ((get_node target_node).isSome = true →
      (env.nodeIp target_node).isSome = true →
      execute_remote env task target_node =
        { status := TaskStatus.failed, result := none,
          error := some "No command or script provided", spawned := [] }) := by
  constructor
  · unfold execute_local
    simp [hc, hs]
  · intro h1 h2
    unfold execute_remote
    cases hg : get_node target_node with
    | none => rw [hg] at h1; simp at h1
    | some n =>
      cases hi : env.nodeIp target_node with
      | none => rw [hi] at h2; simp at h2
      | some ip =>
        simp [hc, hs]

/-- Witness for the amended C5 at a concrete input. -/
theorem no_payload_no_subprocess_witness :
    (execute_local trivial_env (fun s => [s])
      { task_id := "t3", task_type := "generic" }).status =
      TaskStatus.completed ∧
    (execute_remote trivial_env { task_id := "t3", task_type := "generic" }
      "macpro51").status = TaskStatus.failed := by
  have h := no_payload_no_subprocess trivial_env (fun s => [s])
    { task_id := "t3", task_type := "generic" } "macpro51" rfl rfl
  exact ⟨by rw [h.1], by rw [h.2 rfl rfl]⟩

/-- A stored row whose status is `cancelled`. -/
def cancelled_row : TaskRow :=
  { task_id := "t4", task_type := "shell", status := "cancelled" }

/-- A stored row whose status is `completed`. -/
def completed_row : TaskRow :=
  { task_id := "t5", task_type := "shell", status := "completed" }

/-- A stored row whose status is `timeout`. -/
def timeout_row : TaskRow :=
  { task_id := "t6", task_type := "shell", status := "timeout" }

/-- Claim C6 counterexample: with the stored status `cancelled` — one of the
spec's four terminal states — and a positive remaining deadline, neither
router's `wait_for_result` returns the record: both poll to the deadline and
yield nothing; and the legacy variant does the same even for a stored
`timeout`, which the packaged executor writes to the shared store. -/
theorem wait_for_result_cancelled_none :
    wait_for_result (fun _ => some cancelled_row) 5 0 = none ∧
    cancelled_row.status = "cancelled" ∧
    wait_terminal_values.contains "cancelled" = false ∧
    legacy_wait_for_result (fun _ => some cancelled_row) 5 0 = none ∧
    legacy_wait_for_result (fun _ => some timeout_row) 5 0 = none ∧
    timeout_row.status = "timeout" :=
  ⟨rfl, rfl, rfl, rfl, rfl, rfl⟩

theorem wait_for_result_const_none (row : TaskRow)
    (h : wait_terminal_values.contains row.status = false) :
    ∀ n j, wait_for_result (fun _ => some row) n j = none := by
  intro n
  induction n with
  | zero => intro j; rfl
  | succ n ih =>
    intro j
    rw [wait_for_result]
    show (if wait_terminal_values.contains row.status = true then some row
      else wait_for_result (fun _ => some row) n (j + 1)) = none
    rw [if_neg (by rw [h]; exact Bool.false_ne_true)]
    exact ih (j + 1)

theorem legacy_wait_for_result_const_none (row : TaskRow)
    (h : legacy_wait_terminal_values.contains row.status = false) :
    ∀ n j, legacy_wait_for_result (fun _ => some row) n j = none := by
  intro n
  induction n with
  | zero => intro j; rfl
  | succ n ih =>
    intro j
    rw [legacy_wait_for_result]
    show (if legacy_wait_terminal_values.contains row.status = true then
      some row else legacy_wait_for_result (fun _ => some row) n (j + 1)) =
      none
    rw [if_neg (by rw [h]; exact Bool.false_ne_true)]
    exact ih (j + 1)

/-- Claim C6 amended: the packaged `wait_for_result` returns the stored
record exactly when its status is `completed`, `failed` or `timeout`, and
returns nothing once the deadline has passed; the legacy variant, polling
the same shared store, treats only `completed` and `failed` as terminal, so
a stored `timeout` — like a stored `cancelled` in either variant — is polled
past until the deadline and nothing is returned. -/
theorem wait_for_result_terminal (read : Nat → Option TaskRow) (fuel i : Nat)
    (row : TaskRow) (hr : read i = some row) :
    (wait_terminal_values.contains row.status = true →
      wait_for_result read (fuel + 1) i = some row) ∧
    wait_for_result read 0 i = none ∧
    (∀ n j, wait_terminal_values.contains row.status = false →
      wait_for_result (fun _ => some row) n j = none) ∧
    (legacy_wait_terminal_values.contains row.status = true →
      legacy_wait_for_result read (fuel + 1) i = some row) ∧
    legacy_wait_for_result read 0 i = none ∧
    (∀ n j, legacy_wait_terminal_values.contains row.status = false →
      legacy_wait_for_result (fun _ => some row) n j = none) := by
  refine ⟨?_, rfl, ?_, ?_, rfl, ?_⟩
  · intro ht
    rw [wait_for_result, hr]
    exact if_pos ht
  · intro n j h
    exact wait_for_result_const_none row h n j
  · intro ht
    rw [legacy_wait_for_result, hr]
    exact if_pos ht
  · intro n j h
    exact legacy_wait_for_result_const_none row h n j

/-- Witness for the amended C6 at concrete inputs: a stored `completed`
returns the record under both variants; a stored `timeout` polls to nothing
under the legacy variant. -/
theorem wait_for_result_terminal_witness :
    wait_for_result (fun _ => some completed_row) 3 0 = some completed_row ∧
    legacy_wait_for_result (fun _ => some completed_row) 3 0 =
      some completed_row ∧
    legacy_wait_for_result (fun _ => some timeout_row) 4 1 = none := by
  have h := wait_for_result_terminal (fun _ => some completed_row) 2 0
    completed_row rfl
  have h2 := wait_for_result_terminal (fun _ => some timeout_row) 2 0
    timeout_row rfl
  exact ⟨h.1 (by rfl), h.2.2.2.1 (by rfl), h2.2.2.2.2.2 4 1 (by rfl)⟩

theorem pyStrip_empty : pyStrip "" = "" := rfl

theorem empty_or_strip (c : String) :
    (c == "" || pyStrip c == "") = (pyStrip c == "") := by
  cases hc : c == "" with
  | false => rw [Bool.false_or]
  | true =>
    have hce : c = "" := by simpa using hc
    subst hce
    decide

theorem validate_command_fst (c : String) :
    (validate_command c).1 =
      (!(pyStrip c == "") &&
       !(dangerous_patterns.any (fun p => pyIn (pyLower p) (pyLower c)))) := by
  unfold validate_command
  rw [empty_or_strip]
  cases hs : pyStrip c == "" with
  | true => simp [hs]
  | false =>
    simp only [hs, Bool.false_eq_true, if_false, Bool.not_false, Bool.true_and]
    cases hf : dangerous_patterns.find? (fun p => pyIn (pyLower p) (pyLower c)) with
    | some q =>
      have hq : pyIn (pyLower q) (pyLower c) = true := by
        have hq0 := @List.find?_some String
          (fun s => pyIn (pyLower s) (pyLower c)) q dangerous_patterns hf
        simpa using hq0
      have hany : dangerous_patterns.any
          (fun p => pyIn (pyLower p) (pyLower c)) = true :=
        List.any_eq_true.mpr ⟨q, List.mem_of_find?_eq_some hf, hq⟩
      simp [hf, hany]
    | none =>
      have hany : dangerous_patterns.any
          (fun p => pyIn (pyLower p) (pyLower c)) = false := by
        rw [Bool.eq_false_iff]
        intro hcon
        obtain ⟨x, hx, hpx⟩ := List.any_eq_true.mp hcon
        have hnone := List.find?_eq_none.mp hf x hx
        simp [hpx] at hnone
      simp [hf, hany]

theorem submit_validation_error_isSome (command : Option String) :
    (submit_validation_error command).isSome = true ↔
      ∃ c, command = some c ∧ c ≠ "" ∧
        (pyStrip c = "" ∨
         dangerous_patterns.any (fun p => pyIn (pyLower p) (pyLower c)) = true) := by
  cases command with
  | none => simp [submit_validation_error, optStrTruthy]
  | some c =>
    by_cases hce : c = ""
    · subst hce
      simp [submit_validation_error, optStrTruthy]
    · have ht : optStrTruthy (some c) = true := by
        simp [optStrTruthy, hce]
      unfold submit_validation_error
      simp only [Option.getD_some]
      rw [if_pos ht, validate_command_fst]
      by_cases hs : (pyStrip c == "") = true
      · have hs' : pyStrip c = "" := by simpa using hs
        simp [hs, hs', hce]
      · have hs2 : (pyStrip c == "") = false := by
          simpa using hs
        have hs' : pyStrip c ≠ "" := by simpa using hs2
        cases ha : dangerous_patterns.any
            (fun p => pyIn (pyLower p) (pyLower c)) with
        | true =>
          rw [hs2]
          refine iff_of_true rfl ⟨c, rfl, hce, Or.inr ha⟩
        | false =>
          rw [hs2]
          refine iff_of_false (fun hcon => Bool.noConfusion hcon) ?_
          rintro ⟨c1, hc1, hne, hdis⟩
          injection hc1 with hcc
          subst hcc
          rcases hdis with h | h
          · exact hs' h
          · rw [ha] at h
            cases h

/-- Claim C4 counterexample: an empty-string command is falsy in Python, so
`submit_task` skips validation entirely: no exception is raised and a row is
inserted (landing in `failed` on the remote path), although the claim says
an empty command is rejected with no row created. -/
theorem submit_empty_command_accepted :
    (submit_task trivial_env (fun s => [s]) "mac-studio" [] "task-0" 100
      { command := some "" }).2 = none ∧
    (submit_task trivial_env (fun s => [s]) "mac-studio" [] "task-0" 100
      { command := some "" }).1.length = 1 :=
  ⟨rfl, rfl⟩

/-- Claim C4 amended: `submit_task` raises exactly when the command field
holds a non-empty string that is whitespace-only or contains a blocklist
pattern (every other command, shell metacharacters included, is accepted;
an empty-string command is falsy and bypasses validation, so a row is then
inserted), and when it raises the store is left unchanged. -/
theorem submit_task_validation (env : ExecEnv)
    (shlexSplit : String → List String) (local_node_id : String)
    (store : List TaskRow) (task_id : String) (now : Int)
    (task_def : TaskDef) :
    ((submit_task env shlexSplit local_node_id store task_id now
        task_def).2.isSome = true ↔
      ∃ c, task_def.command = some c ∧ c ≠ "" ∧
        (pyStrip c = "" ∨
         dangerous_patterns.any (fun p => pyIn (pyLower p) (pyLower c)) = true)) ∧
    ((submit_task env shlexSplit local_node_id store task_id now
        task_def).2.isSome = true →
      (submit_task env shlexSplit local_node_id store task_id now
        task_def).1 = store) := by
  unfold submit_task
  cases hv : submit_validation_error task_def.command with
  | some msg =>
    constructor
    · rw [← submit_validation_error_isSome, hv]
    · intro
      rfl
  | none =>
    constructor
    · rw [← submit_validation_error_isSome, hv]
    · intro h
      simp at h

/-- Witness for the amended C4 at a concrete input: a blocklisted command is
rejected and the (empty) store stays unchanged. -/
theorem submit_task_validation_witness :
    (submit_task trivial_env (fun s => [s]) "mac-studio" [] "task-1" 100
      { command := some "rm -rf /" }).1 = [] :=
  (submit_task_validation trivial_env (fun s => [s]) "mac-studio" [] "task-1"
    100 { command := some "rm -rf /" }).2 (by rfl)

/-! ## Hostname resolution (`router.py` and the legacy
`distributed_task_router.py`)

Each resolver method's external result is supplied by a `ResolverProbe`;
the parsing of each method's output is embedded from the source.  The
resolution cache maps a hostname to an (address, timestamp) pair. -/

/-- The process-global `_ip_cache`: hostname → (address, timestamp). -/
abbrev Cache := List (String × String × Int)

/-- Python dict assignment `_ip_cache[hostname] = (ip, now)`: replace the
existing entry in place, else append. -/
def cacheStore (cache : Cache) (hostname ip : String) (now : Int) : Cache :=
  if (cache.lookup hostname).isSome then
    cache.map (fun e => if e.1 == hostname then (hostname, ip, now) else e)
  else cache ++ [(hostname, ip, now)]

/-- Raw outcomes of the resolver's four lookup methods.  `none` models a
raised-and-caught exception (gaierror, timeout, missing binary); for the
subprocess-based methods the pair is (returncode, stdout). -/
structure ResolverProbe where
  gethostbyname : Option String
  avahi : Option (Int × String)
  getent : Option (Int × String)
  ping : Option (Int × String)

/-- Candidate from `avahi-resolve -n` output: exit 0, nonempty stripped
stdout, at least two whitespace tokens, second token. -/
def avahiParse (rc : Int) (stdout : String) : Option String :=
  if rc == 0 && !(pyStrip stdout == "") then
    let parts := pySplitWs (pyStrip stdout)
    if parts.length ≥ 2 then parts.get? 1 else none
  else none

/-- Candidate from `getent hosts` output: exit 0, nonempty stripped stdout,
first whitespace token. -/
def getentParse (rc : Int) (stdout : String) : Option String :=
  if rc == 0 && !(pyStrip stdout == "") then
    (pySplitWs (pyStrip stdout)).get? 0
  else none

/-- One greedy digit run and the remainder. -/
def takeDigitsRun (cs : List Char) : List Char × List Char :=
  (cs.takeWhile Char.isDigit, cs.dropWhile Char.isDigit)

/-- Match `\d+\.\d+\.\d+\.\d+\)` at the head of the character list,
returning the dotted quad. -/
def matchQuadAfterParen (cs : List Char) : Option String :=
  let (d1, r1) := takeDigitsRun cs
  if d1.isEmpty then none else
  match r1 with
  | '.' :: r1b =>
    let (d2, r2) := takeDigitsRun r1b
    if d2.isEmpty then none else
    match r2 with
    | '.' :: r2b =>
      let (d3, r3) := takeDigitsRun r2b
      if d3.isEmpty then none else
      match r3 with
      | '.' :: r3b =>
        let (d4, r4) := takeDigitsRun r3b
        if d4.isEmpty then none else
        match r4 with
        | ')' :: _ => some ⟨d1 ++ ['.'] ++ d2 ++ ['.'] ++ d3 ++ ['.'] ++ d4⟩
        | _ => none
      | _ => none
    | _ => none
  | _ => none

/-- Leftmost match of `re.search(r'\((\d+\.\d+\.\d+\.\d+)\)', ...)`. -/
def searchParenQuad : List Char → Option String
  | [] => none
  | '(' :: rest =>
    (match matchQuadAfterParen rest with
     | some q => some q
     | none => searchParenQuad rest)
  | _ :: rest => searchParenQuad rest

/-- Candidate from `ping -c 1` output: exit 0 and a parenthesised dotted
quad in stdout. -/
def pingParse (rc : Int) (stdout : String) : Option String :=
  if rc == 0 then searchParenQuad stdout.data else none

/-- The candidate addresses the packaged resolver's four methods produce, in
cascade order (the avahi method is gated on a `.local` hostname). -/
def method_candidates (hostname : String) (pr : ResolverProbe) : List String :=
  pr.gethostbyname.toList ++
  (if pyEndswith hostname ".local" then
    (pr.avahi.bind (fun r => avahiParse r.1 r.2)).toList
   else []) ++
  (pr.getent.bind (fun r => getentParse r.1 r.2)).toList ++
  (pr.ping.bind (fun r => pingParse r.1 r.2)).toList

/-- The packaged resolver's method cascade after a cache miss: the first
candidate passing `validate_ip` is cached and returned; a candidate failing
the filter falls through to the next method. -/
def resolve_after_miss (cache : Cache) (now : Int) (hostname : String) :
    List String → Option String × Cache
  | [] => (none, cache)
  | ip :: rest =>
    if validate_ip ip then (some ip, cacheStore cache hostname ip now)
    else resolve_after_miss cache now hostname rest

/-- `resolve_hostname` from `router.py`: fresh cache hit short-circuits; a
stale entry is ignored (and overwritten only on a validated success); every
method result is filtered through `validate_ip` before caching/returning. -/
def resolve_hostname (cache : Cache) (now ttl : Int) (hostname : String)
    (pr : ResolverProbe) : Option String × Cache :=
  match cache.lookup hostname with
  | some (cached_ip, cached_time) =>
    if now - cached_time < ttl then (some cached_ip, cache)
    else resolve_after_miss cache now hostname (method_candidates hostname pr)
  | none => resolve_after_miss cache now hostname (method_candidates hostname pr)

/-- The trailing checks of the legacy `_is_valid_cluster_ip` (link-local and
the podman `10.0.` slice; it has no malformed-literal check). -/
def legacy_valid_rest (ip : String) : Option Bool :=
  if pyStartswith ip "169.254." then some false
  else if pyStartswith ip "10." && pyStartswith ip "10.0." then some false
  else some true

/-- `_is_valid_cluster_ip` from the legacy router; `none` models the uncaught
`ValueError` when the second dot-field of a `172.`-prefixed address fails
`int()`. -/
def legacy_is_valid_cluster_ip (ip : String) : Option Bool :=
  if ip == "" then some false
  else if pyStartswith ip "127." then some false
  else if pyStartswith ip "172." then
    match pyIntOfString (((pySplitOn '.' ip).get? 1).getD "") with
    | none => none
    | some n =>
      if 16 ≤ n ∧ n ≤ 31 then some false
      else legacy_valid_rest ip
  else legacy_valid_rest ip

/-- Methods 2–4 of the legacy resolver: avahi (gated on `.local`), getent,
ping — each parsed result is cached and returned with **no** validity
check. -/
def legacy_methods234 (cache : Cache) (now : Int) (hostname : String)
    (pr : ResolverProbe) : Option String × Cache :=
  match (if pyEndswith hostname ".local" then
          pr.avahi.bind (fun r => avahiParse r.1 r.2) else none) with
  | some ip => (some ip, cacheStore cache hostname ip now)
  | none =>
    match pr.getent.bind (fun r => getentParse r.1 r.2) with
    | some ip => (some ip, cacheStore cache hostname ip now)
    | none =>
      match pr.ping.bind (fun r => pingParse r.1 r.2) with
      | some ip => (some ip, cacheStore cache hostname ip now)
      | none => (none, cache)

/-- Method 1 of the legacy resolver: only this method's result passes
through `_is_valid_cluster_ip`; an invalid result falls through to the
unvalidated methods.  `none` models the validity helper raising. -/
def legacy_methods1 (cache : Cache) (now : Int) (hostname : String)
    (pr : ResolverProbe) : Option (Option String × Cache) :=
  match pr.gethostbyname with
  | some ip =>
    (match legacy_is_valid_cluster_ip ip with
     | none => none
     | some true => some (some ip, cacheStore cache hostname ip now)
     | some false => some (legacy_methods234 cache now hostname pr))
  | none => some (legacy_methods234 cache now hostname pr)

/-- `resolve_hostname` from the legacy `distributed_task_router.py`
(lines 99–175): fixed 300 s TTL; avahi/getent/ping results are cached and
returned without any validity filtering. -/
def legacy_resolve_hostname (cache : Cache) (now : Int) (hostname : String)
    (pr : ResolverProbe) : Option (Option String × Cache) :=
  match cache.lookup hostname with
  | some (cached_ip, cached_time) =>
    if now - cached_time < 300 then some (some cached_ip, cache)
    else legacy_methods1 cache now hostname pr
  | none => legacy_methods1 cache now hostname pr

/-! ### Resolver lemmas and claim C7 -/

theorem cacheStore_mem (cache : Cache) (hostname ip : String) (now : Int) :
    ∀ e ∈ cacheStore cache hostname ip now,
      e = (hostname, ip, now) ∨ e ∈ cache := by
  intro e he
  unfold cacheStore at he
  split at he
  · obtain ⟨x, hx, hfx⟩ := List.mem_map.mp he
    by_cases hxk : (x.1 == hostname) = true
    · left
      rw [← hfx]
      simp [hxk]
    · right
      rw [← hfx]
      simp only [hxk, Bool.false_eq_true, if_false]
      exact hx
  · rcases List.mem_append.mp he with h | h
    · right; exact h
    · left; simpa using h

theorem cacheStore_self (cache : Cache) (hostname ip : String) (now : Int) :
    (hostname, ip, now) ∈ cacheStore cache hostname ip now := by
  unfold cacheStore
  split
  · rename_i hlk
    rw [Option.isSome_iff_exists] at hlk
    obtain ⟨v, hv⟩ := hlk
    have hmem := lookup_eq_some_mem cache hostname v hv
    refine List.mem_map.mpr ⟨(hostname, v), hmem, ?_⟩
    simp
  · exact List.mem_append.mpr (Or.inr (by simp))

theorem resolve_after_miss_spec (cache : Cache) (now ttl : Int)
    (hostname : String) (cands : List String) (httl : 0 < ttl)
    (hinv : ∀ e ∈ cache, validate_ip e.2.1 = true) :
    (∀ ip, (resolve_after_miss cache now hostname cands).1 = some ip →
      validate_ip ip = true ∧
      ∃ t, (hostname, ip, t) ∈ (resolve_after_miss cache now hostname cands).2 ∧
        now - t < ttl) ∧
    (∀ e ∈ (resolve_after_miss cache now hostname cands).2,
      validate_ip e.2.1 = true) := by
  induction cands with
  | nil =>
    constructor
    · intro ip hip
      simp [resolve_after_miss] at hip
    · intro e he
      exact hinv e (by simpa [resolve_after_miss] using he)
  | cons c rest ih =>
    rw [resolve_after_miss]
    by_cases hv : validate_ip c = true
    · simp only [hv, if_true]
      constructor
      · intro ip hip
        simp only [Option.some.injEq] at hip
        subst hip
        exact ⟨hv, now, cacheStore_self cache hostname c now, by omega⟩
      · intro e he
        rcases cacheStore_mem cache hostname c now e he with he1 | he2
        · rw [he1]
          exact hv
        · exact hinv e he2
    · have hv' : validate_ip c = false := by simpa using hv
      simp only [hv', Bool.false_eq_true, if_false]
      exact ih

/-- The probe for the C7 counterexample: the DNS lookup fails and
`getent hosts` prints a loopback address. -/
def loopback_probe : ResolverProbe :=
  { gethostbyname := none, avahi := none,
    getent := some (0, "127.0.0.1     badhost"), ping := none }

/-- Claim C7 counterexample: the legacy resolver returns the loopback
address delivered by `getent` and writes it into the cache without running
it through the validity filter (which rejects it). -/
theorem legacy_resolver_caches_loopback :
    legacy_resolve_hostname [] 1000 "badhost" loopback_probe =
      some (some "127.0.0.1", [("badhost", "127.0.0.1", 1000)]) ∧
    validate_ip "127.0.0.1" = false ∧
    legacy_is_valid_cluster_ip "127.0.0.1" = some false :=
  ⟨rfl, rfl, rfl⟩

/-- Claim C7 amended: the packaged resolver satisfies the claim — every
address it returns passes the validity filter and sits in the updated cache
with a fresh timestamp, the cache-wide validity invariant is preserved, and
a stale entry is never served — but the legacy resolver violates it by
caching and returning unvalidated avahi/getent/ping results (see the
counterexample). -/
theorem resolve_hostname_valid (cache : Cache) (now ttl : Int)
    (hostname : String) (pr : ResolverProbe) (httl : 0 < ttl)
    (hinv : ∀ e ∈ cache, validate_ip e.2.1 = true) :
    (∀ ip, (resolve_hostname cache now ttl hostname pr).1 = some ip →
      validate_ip ip = true ∧
      ∃ t, (hostname, ip, t) ∈ (resolve_hostname cache now ttl hostname pr).2 ∧
        now - t < ttl) ∧
    (∀ e ∈ (resolve_hostname cache now ttl hostname pr).2,
      validate_ip e.2.1 = true) := by
  unfold resolve_hostname
  split
  · rename_i cached_ip cached_time hlk
    split
    · rename_i hfresh
      constructor
      · intro ip hip
        simp only [Option.some.injEq] at hip
        subst hip
        have hmem := lookup_eq_some_mem cache hostname _ hlk
        exact ⟨hinv _ hmem, cached_time, hmem, hfresh⟩
      · exact hinv
    · exact resolve_after_miss_spec cache now ttl hostname _ httl hinv
  · exact resolve_after_miss_spec cache now ttl hostname _ httl hinv

/-- A probe whose DNS lookup yields a valid LAN address. -/
def fresh_probe : ResolverProbe :=
  { gethostbyname := some "192.168.1.50", avahi := none, getent := none,
    ping := none }

/-- Witness for the amended C7 at a concrete input: the address the packaged
resolver returns for `host.local` passes the validity filter. -/
theorem resolve_hostname_valid_witness :
    validate_ip "192.168.1.50" = true :=
  ((resolve_hostname_valid [] 1000 300 "host.local" fresh_probe (by decide)
    (by simp)).1 "192.168.1.50" rfl).1

/-! ## Parallel fan-out (`server.py`, `parallel_execute`) -/

/-- One result record of `parallel_execute` (absent dictionary keys are
`none`). -/
structure PResult where
  command : Option String := none
  success : Bool := false
  executed_on : Option String := none
  stdout : Option String := none
  stderr : Option String := none
  return_code : Option Int := none
  error : Option String := none
deriving DecidableEq

/-- Outcome of one `asyncio.create_subprocess_exec` ssh invocation:
completion, `asyncio.TimeoutError`, or a caught `OSError`. -/
inductive AsyncOutcome where
  | finished (stdout stderr : String) (returncode : Int)
  | timedOut
  | osErr (msg : String)
deriving DecidableEq

/-- Oracle for the fan-out dispatcher's external effects: `get_node_ip` and
the ssh run of a command against a resolved address. -/
structure ParallelEnv where
  nodeIp : String → Option String
  run : String → String → AsyncOutcome

/-- `nodes = list(CLUSTER_NODES.keys())`. -/
def cluster_node_keys : List String := CLUSTER_NODES.map Prod.fst

/-- `nodes[idx % len(nodes)]`: the round-robin target of the idx-th
command. -/
def rr_node (idx : Nat) : String :=
  cluster_node_keys.getD (idx % cluster_node_keys.length) ""

/-- `execute_one` inside `parallel_execute`: round-robin target selection,
address resolution, argv-list ssh invocation, per-command outcome record. -/
def execute_one (env : ParallelEnv) (cmd : String) (idx : Nat) : PResult :=
  match env.nodeIp (rr_node idx) with
  | none =>
    { command := some cmd, success := false,
      error := some ("Cannot resolve IP for " ++ rr_node idx) }
  | some ip =>
    match env.run ip cmd with
    | .finished out err rc =>
      { command := some cmd, success := rc == 0,
        executed_on := some (rr_node idx),
        stdout := some out, stderr := some err, return_code := some rc }
    | .timedOut =>
      { command := some cmd, success := false,
        executed_on := some (rr_node idx), error := some "Timeout" }
    | .osErr m =>
      { command := some cmd, success := false,
        executed_on := some (rr_node idx), error := some m }

/-- The fail-fast validation loop of `parallel_execute`: the first command
failing `validate_command`, if any. -/
def find_invalid (commands : List String) : Option String :=
  commands.find? (fun c => !(validate_command c).1)

/-- `[execute_one(cmd, i) for i, cmd in enumerate(commands)]` gathered in
task (input) order. -/
def mapWithIdx (f : Nat → String → PResult) : Nat → List String → List PResult
  | _, [] => []
  | i, c :: cs => f i c :: mapWithIdx f (i + 1) cs

/-- `parallel_execute` from `server.py`: a single error record when any
command fails validation, otherwise one result per command, gathered in
input order. -/
def parallel_execute (env : ParallelEnv) (commands : List String) :
    List PResult :=
  match find_invalid commands with
  | some c =>
    [{ success := false,
       error := some ("Invalid command: " ++
         ((validate_command c).2.getD "None")) }]
  | none => mapWithIdx (fun i cmd => execute_one env cmd i) 0 commands

/-! ### Fan-out lemmas and claim C9 -/

theorem mapWithIdx_length (f : Nat → String → PResult) (i : Nat)
    (cs : List String) : (mapWithIdx f i cs).length = cs.length := by
  induction cs generalizing i with
  | nil => rfl
  | cons c cs ih => simp [mapWithIdx, ih]

theorem mapWithIdx_get? (f : Nat → String → PResult) (cs : List String) :
    ∀ i j, (mapWithIdx f i cs).get? j = (cs.get? j).map (fun c => f (i + j) c) := by
  induction cs with
  | nil => intro i j; simp [mapWithIdx]
  | cons c cs ih =>
    intro i j
    cases j with
    | zero => simp [mapWithIdx]
    | succ j =>
      rw [mapWithIdx]
      simp only [List.get?_cons_succ]
      rw [ih (i + 1) j]
      have hidx : i + 1 + j = i + (j + 1) := by omega
      rw [hidx]

/-- Claim C9: `parallel_execute` on n all-valid commands returns exactly n
results, the j-th being the result of the j-th input command (input order,
not completion order) with its target chosen round-robin as node j mod
(number of configured nodes); any validation failure instead yields a
single error record. -/
theorem parallel_execute_spec (env : ParallelEnv) (commands : List String) :
    ((∀ c ∈ commands, (validate_command c).1 = true) →
      (parallel_execute env commands).length = commands.length ∧
      (∀ j, (parallel_execute env commands).get? j =
        (commands.get? j).map (fun cmd => execute_one env cmd j)) ∧
      (∀ cmd j, (execute_one env cmd j).executed_on = none ∨
        (execute_one env cmd j).executed_on = some (rr_node j))) ∧
    ((∃ c ∈ commands, (validate_command c).1 = false) →
      ∃ r, parallel_execute env commands = [r] ∧ r.success = false ∧
        r.error.isSome = true) := by
  constructor
  · intro hall
    have hfi : find_invalid commands = none := by
      unfold find_invalid
      rw [List.find?_eq_none]
      intro c hc
      simp [hall c hc]
    unfold parallel_execute
    rw [hfi]
    refine ⟨mapWithIdx_length _ _ _, ?_, ?_⟩
    · intro j
      rw [mapWithIdx_get? _ commands 0 j]
      simp
    · intro cmd j
      unfold execute_one
      split
      · left; rfl
      · split <;> (right; rfl)
  · intro ⟨c, hc, hinvalid⟩
    cases hfi : find_invalid commands with
    | none =>
      exfalso
      have := List.find?_eq_none.mp hfi c hc
      simp [hinvalid] at this
    | some c2 =>
      unfold parallel_execute
      rw [hfi]
      exact ⟨_, rfl, rfl, rfl⟩

/-- A concrete fan-out oracle for the witness: every node resolves and every
run succeeds. -/
def trivial_penv : ParallelEnv :=
  { nodeIp := fun _ => some "192.168.1.27",
    run := fun _ _ => AsyncOutcome.finished "" "" 0 }

/-- Witness for C9 at a concrete input: four valid commands yield four
results. -/
theorem parallel_execute_spec_witness :
    (parallel_execute trivial_penv
      ["echo a", "echo b", "echo c", "echo d"]).length = 4 :=
  ((parallel_execute_spec trivial_penv
    ["echo a", "echo b", "echo c", "echo d"]).1 (by decide)).1

end Cluster
